import Mathlib

/-!
Shallow embedding of the core of the Compal CH7465LG client
(src compal module: class Compal, class BackupRestore, class FuncScanner).

Python ordered dictionaries are modelled as association lists preserving
insertion order; setting an existing key updates its value in place, setting a
fresh key appends.  HTTP responses are records of the fields the code reads
(status code, body text, headers, response cookies).  Network transport is an
oracle: each definition receives the responses and transport outcomes of the
requests it issues as explicit arguments, and side effects (issued requests,
in-place mutation of caller dictionaries) are returned as explicit components.
-/

namespace CompalModel

/-- Values stored in the ordered request dictionaries: Python None, strings,
and integers (function identifiers and numeric form fields). -/
inductive PVal where
  | none
  | str (s : String)
  | int (n : Int)
deriving DecidableEq

/-- A Python ordered dictionary of request fields, as an insertion-ordered
association list with (in well-formed states) pairwise distinct keys. -/
abbrev ODict := List (String × PVal)

/-- Python dict assignment d[k] = v: update in place when the key exists,
append otherwise. -/
def dictSet : ODict → String → PVal → ODict
  | [], k, v => [(k, v)]
  | (k₁, v₁) :: rest, k, v =>
    if k₁ = k then (k, v) :: rest else (k₁, v₁) :: dictSet rest k v

/-- Python membership test: k in d. -/
def dictContains (d : ODict) (k : String) : Bool :=
  d.any (fun kv => decide (kv.1 = k))

/-- Python d.get(k) or d[k] lookup: first value stored under the key. -/
def dictGet : ODict → String → Option PVal
  | [], _ => Option.none
  | (k₁, v₁) :: rest, k => if k₁ = k then some v₁ else dictGet rest k

/-- The removal effect of Python d.pop(k): drop the (in a well-formed dict,
unique) entry with the given key. -/
def dictRemove : ODict → String → ODict
  | [], _ => []
  | (k₁, v₁) :: rest, k => if k₁ = k then rest else (k₁, v₁) :: dictRemove rest k

/-- The keys of the dictionary, in insertion order. -/
def dictKeys (d : ODict) : List String := d.map Prod.fst

/-- Python d.update(other): set each entry of other into d, in order. -/
def dictUpdate (d other : ODict) : ODict :=
  other.foldl (fun acc kv => dictSet acc kv.1 kv.2) d

/-- Lookup in a plain string-to-string association list (headers, cookies);
models dict style .get returning None when absent. -/
def assocGet : List (String × String) → String → Option String
  | [], _ => Option.none
  | (k₁, v₁) :: rest, k => if k₁ = k then some v₁ else assocGet rest k

/-- Set-or-replace in a string-to-string association list; models
session.cookies.update with a single key. -/
def assocSet : List (String × String) → String → String → List (String × String)
  | [], k, v => [(k, v)]
  | (k₁, v₁) :: rest, k, v =>
    if k₁ = k then (k, v) :: rest else (k₁, v₁) :: assocSet rest k v

/-- The fields of a requests Response that the client reads: status code, body
text, headers, and the cookies set by this specific response. -/
structure Response where
  status_code : Nat
  text : String
  headers : List (String × String)
  cookies : List (String × String)
deriving DecidableEq

/-- The session state that the token interceptor touches: the current
anti-replay token and the session cookie jar. -/
structure SessionState where
  session_token : Option String
  cookies : List (String × String)
deriving DecidableEq

/-- Compal.token_handler: runs after every response and performs
session_token := res.cookies.get of the sessionToken key (the remaining
statements only log). -/
def token_handler (st : SessionState) (res : Response) : SessionState :=
  { st with session_token := assocGet res.cookies "sessionToken" }

/-- The value stored under the token key: the current session token, or Python
None when no token has been captured yet. -/
def tokenVal : Option String → PVal
  | Option.none => PVal.none
  | some s => PVal.str s

/-- The POST request that Compal.post hands to session.post: target path,
ordered form data, and the allow_redirects flag. -/
structure PostRequest where
  path : String
  data : ODict
  allow_redirects : Bool
deriving DecidableEq

/-- Compal.post: builds data = OrderedDict with the token field first, then the
fun field popped out of the supplied dict when present, then
data.update with the rest, and issues the POST with allow_redirects False.
Returns the issued request together with the supplied dict after the in-place
pop mutation. -/
def post (token : Option String) (path : String) (given : ODict) :
    PostRequest × ODict :=
  let d0 : ODict := [("token", tokenVal token)]
  let step :=
    if dictContains given "fun" then
      (dictSet d0 "fun" ((dictGet given "fun").getD PVal.none),
       dictRemove given "fun")
    else (d0, given)
  ({ path := path, data := dictUpdate step.1 step.2, allow_redirects := false },
   step.2)

/-- The body ordering the specification claims for every POST: token first,
then fun when present in the supplied data, then the remaining caller
fields in caller order. -/
def claimedPostBody (token : Option String) (given : ODict) : ODict :=
  ("token", tokenVal token) ::
    (if dictContains given "fun" then
      ("fun", (dictGet given "fun").getD PVal.none) :: dictRemove given "fun"
    else given)

/-- Python level errors raised by the client. -/
inductive PyError where
  | typeError
  | keyError (k : String)
deriving DecidableEq

/-- Compal.xml_getter: params[fun-key] := fun, then post against the getter
endpoint. -/
def xml_getter (token : Option String) (f : PVal) (params : ODict) :
    PostRequest × ODict :=
  post token "/xml/getter.xml" (dictSet params "fun" f)

/-- The request built by Compal.xml_setter once a params dict is present. -/
def xml_setter_call (token : Option String) (f : PVal) (params : ODict) :
    PostRequest × ODict :=
  post token "/xml/setter.xml" (dictSet params "fun" f)

/-- Compal.xml_setter: params defaults to None, and the unconditional
params[fun-key] := fun then raises TypeError when no dict was supplied;
otherwise post against the setter endpoint. -/
def xml_setter (token : Option String) (f : PVal) (params : Option ODict) :
    Except PyError (PostRequest × ODict) :=
  match params with
  | Option.none => Except.error PyError.typeError
  | some p => Except.ok (xml_setter_call token f p)

/-- Split a character list on a separator character, keeping empty chunks,
with the semantics of str.split on a one-character separator. -/
def splitOnChar (sep : Char) : List Char → List (List Char)
  | [] => [[]]
  | c :: rest =>
    let r := splitOnChar sep rest
    if c = sep then [] :: r
    else
      match r with
      | [] => [[c]]
      | g :: gs => (c :: g) :: gs

/-- Split a character list at the first occurrence of a separator character,
with the semantics of str.partition; none when the separator is absent. -/
def splitFirst (sep : Char) : List Char → Option (List Char × List Char)
  | [] => Option.none
  | c :: rest =>
    if c = sep then some ([], rest)
    else
      match splitFirst sep rest with
      | Option.none => Option.none
      | some (k, v) => some (c :: k, v)

/-- The pairs produced by urllib.parse.parse_qs on the response body: split on
the ampersand, split each chunk at its first equals sign, and (with the default
keep_blank_values False) drop chunks whose value part is empty, including
chunks with no equals sign at all.  Percent and plus decoding of urllib is
omitted: the SID payloads the client reads are plain alphanumeric tokens. -/
def qsPairs (text : String) : List (String × String) :=
  (splitOnChar (Char.ofNat 38) text.data).filterMap fun part =>
    match splitFirst (Char.ofNat 61) part with
    | Option.none => Option.none
    | some (k, v) =>
      if v = [] then Option.none
      else some (String.mk k, String.mk v)

/-- str.endswith: the pattern is a suffix of the string.  Stated over the
character lists so that it evaluates by kernel reduction. -/
def strEndsWith (s pat : String) : Bool :=
  decide (s.data.drop (s.data.length - pat.data.length) = pat.data)

/-- tokens.get of SID followed by taking element zero: the first SID value of
the parsed query string, None when the key is absent (parse_qs never stores an
empty value list, so absence of the key is the only falsy case). -/
def parse_qs_first (text : String) (key : String) : Option String :=
  (((qsPairs text).filter (fun kv => decide (kv.1 = key))).head?).map Prod.snd

/-- The distinct failures Compal.login can raise. -/
inductive LoginError where
  | accessDenied
  | unknownFailure
  | invalidCredentials
  | missingLocation
deriving DecidableEq

/-- Compal.login, applied to the response res of the login setter call and the
session cookie jar: on a non-200 status the Location header is read (a KeyError
when the header is absent) and its suffix decides between the access-denied and
the unknown-failure ValueError; on a 200 status the body is parsed as a query
string, a missing SID raises the invalid-credentials ValueError, and otherwise
the first SID value is installed as the SID cookie and res is returned. -/
def login (jar : List (String × String)) (res : Response) :
    Except LoginError (List (String × String) × Response) :=
  if res.status_code ≠ 200 then
    match assocGet res.headers "Location" with
    | Option.none => Except.error LoginError.missingLocation
    | some loc =>
      if strEndsWith loc "common_page/Access-denied.html" then
        Except.error LoginError.accessDenied
      else
        Except.error LoginError.unknownFailure
  else
    match parse_qs_first res.text "SID" with
    | Option.none => Except.error LoginError.invalidCredentials
    | some sid => Except.ok (assocSet jar "SID" sid, res)

/-- The raw-body POST that Compal.post_binary hands to session.post: path,
binary payload, and explicit headers. -/
structure BinaryRequest where
  path : String
  body : String
  headers : List (String × String)
deriving DecidableEq

/-- Compal.post_binary: issues a raw-body POST whose headers carry the
form-data Content-Disposition with the given filename and the
application/octet-stream Content-Type.  The Python function body ends without
a return statement, so the value handed back to the caller is None: the second
component, the value returned, is therefore always none, while the first
component records the request that was issued. -/
def post_binary (path : String) (binary_data : String) (filename : String) :
    BinaryRequest × Option Response :=
  ({ path := path, body := binary_data,
     headers :=
       [("Content-Disposition",
         "form-data; name=\"file\"; filename=\"" ++ filename ++ "\""),
        ("Content-Type", "application/octet-stream")] },
   Option.none)

/-- BackupRestore.restore: delegates to post_binary on the Restore query path
with the payload length, fixed filename Config_Restore.bin, and returns
whatever post_binary returned. -/
def restore (data : String) : BinaryRequest × Option Response :=
  post_binary ("/xml/getter.xml?Restore=" ++ toString data.length) data
    "Config_Restore.bin"

/-- Transport-level failures of the requests library that the client
distinguishes: requests.exceptions.ReadTimeout against everything else. -/
inductive TransportError where
  | readTimeout
  | connectError
  | tooManyRedirects
deriving DecidableEq

/-- Compal.reboot, applied to the outcome of the reboot setter call: the call
result is returned, except that a ReadTimeout is caught and None is returned;
every other transport failure propagates. -/
def reboot (setRes : Except TransportError Response) :
    Except TransportError (Option Response) :=
  match setRes with
  | Except.ok r => Except.ok (some r)
  | Except.error TransportError.readTimeout => Except.ok Option.none
  | Except.error e => Except.error e

/-- A request issued against the modem, tagged by the primitive that issued
it; used to record the order of effects. -/
inductive Eff where
  | getterCall (req : PostRequest)
  | setterCall (req : PostRequest)
deriving DecidableEq

/-- Compal.factory_reset, applied to the outcomes of its two calls: first the
default-value getter runs (outside any try block, so its failure propagates
with no setter issued); on its success the factory-reset setter runs with a
ReadTimeout swallowed, and the getter snapshot is returned.  The second
component lists the issued requests in order; dv and fr stand for the numeric
function identifiers Get.DEFAULTVALUE and Set.FACTORY_RESET of the functions
module. -/
def factory_reset (token : Option String) (dv fr : PVal)
    (getRes setRes : Except TransportError Response) :
    Except TransportError Response × List Eff :=
  let getReq := (xml_getter token dv []).1
  match getRes with
  | Except.error e => (Except.error e, [Eff.getterCall getReq])
  | Except.ok default_settings =>
    let setReq := (xml_setter_call token fr []).1
    match setRes with
    | Except.ok _ =>
        (Except.ok default_settings,
         [Eff.getterCall getReq, Eff.setterCall setReq])
    | Except.error TransportError.readTimeout =>
        (Except.ok default_settings,
         [Eff.getterCall getReq, Eff.setterCall setReq])
    | Except.error e =>
        (Except.error e, [Eff.getterCall getReq, Eff.setterCall setReq])

/-- The mutable state of FuncScanner: the scan cursor current_pos and the
position of the last forced re-login (initially minus one). -/
structure ScannerState where
  current_pos : Int
  last_login : Int
deriving DecidableEq

/-- Outcome of one iteration of the while loop in FuncScanner.scan. -/
inductive ScanIter where
  | reLogin (s : ScannerState)
  | advanced (r : Response) (s : ScannerState)
  | httpError (status : Nat)
deriving DecidableEq

/-- One iteration of the loop body of FuncScanner.scan, given the response r
of the probe xml_getter at current_pos and the value valid of the
is_valid_session probe (only consulted when the body is empty).  An empty body
with an invalid session records last_login := current_pos, performs login, and
continues without advancing; otherwise a 200 status advances the cursor by
one, and any other status raises the HTTP ValueError. -/
def scanStep (s : ScannerState) (r : Response) (valid : Bool) : ScanIter :=
  if r.text = "" ∧ valid = false then
    ScanIter.reLogin { s with last_login := s.current_pos }
  else if r.status_code = 200 then
    ScanIter.advanced r { s with current_pos := s.current_pos + 1 }
  else
    ScanIter.httpError r.status_code

/-- Result of running FuncScanner.scan against a finite script of oracle
answers: normal exit with the final non-empty response, the fatal HTTP
ValueError, or exhaustion of the script while the loop still runs. -/
inductive ScanResult where
  | ok (r : Response) (s : ScannerState)
  | httpError (status : Nat) (s : ScannerState)
  | outOfScript (s : ScannerState)
deriving DecidableEq

/-- FuncScanner.scan as iteration of scanStep over a script that supplies, per
loop iteration, the probe response and the session-validity answer.  The while
condition keeps looping until the response text is non-empty (the source
compares with the is operator against the interned empty string, which for
CPython response texts coincides with equality to the empty string). -/
def scanRun (script : List (Response × Bool)) (s : ScannerState) : ScanResult :=
  match script with
  | [] => ScanResult.outOfScript s
  | (r, valid) :: rest =>
    match scanStep s r valid with
    | ScanIter.reLogin s₁ => scanRun rest s₁
    | ScanIter.advanced r₁ s₁ =>
        if r₁.text = "" then scanRun rest s₁ else ScanResult.ok r₁ s₁
    | ScanIter.httpError code => ScanResult.httpError code s

/-! Helper lemmas about the ordered-dictionary operations. -/

theorem dictContains_true_iff (d : ODict) (k : String) :
    dictContains d k = true ↔ ∃ kv ∈ d, kv.1 = k := by
  simp [dictContains, List.any_eq_true]

theorem forall_of_contains_false {d : ODict} {k : String}
    (h : dictContains d k = false) : ∀ kv ∈ d, kv.1 ≠ k := by
  intro kv hm he
  have ht : dictContains d k = true := (dictContains_true_iff d k).mpr ⟨kv, hm, he⟩
  rw [ht] at h
  exact Bool.noConfusion h

theorem dictSet_append {d : ODict} {k : String} (v : PVal)
    (h : ∀ kv ∈ d, kv.1 ≠ k) : dictSet d k v = d ++ [(k, v)] := by
  induction d with
  | nil => rfl
  | cons kv rest ih =>
    obtain ⟨k₁, v₁⟩ := kv
    have hk : k₁ ≠ k := h (k₁, v₁) (List.mem_cons_self _ _)
    simp only [dictSet, if_neg hk, List.cons_append, List.cons.injEq, true_and]
    exact ih (fun kv₂ hm => h kv₂ (List.mem_cons_of_mem _ hm))

theorem dictUpdate_append {other : ODict} (d : ODict)
    (hnd : (dictKeys other).Nodup)
    (h : ∀ kv ∈ other, ∀ kv₁ ∈ d, kv₁.1 ≠ kv.1) :
    dictUpdate d other = d ++ other := by
  induction other generalizing d with
  | nil => simp [dictUpdate]
  | cons kv rest ih =>
    obtain ⟨k, v⟩ := kv
    rw [dictKeys, List.map_cons, List.nodup_cons] at hnd
    obtain ⟨hknotin, hndrest⟩ := hnd
    have hset : dictSet d k v = d ++ [(k, v)] :=
      dictSet_append v (fun kv₁ hm => h (k, v) (List.mem_cons_self _ _) kv₁ hm)
    have hdisj : ∀ kv₂ ∈ rest, ∀ kv₁ ∈ d ++ [(k, v)], kv₁.1 ≠ kv₂.1 := by
      intro kv₂ hm₂ kv₁ hm₁
      rcases List.mem_append.mp hm₁ with hm₁d | hm₁s
      · exact h kv₂ (List.mem_cons_of_mem _ hm₂) kv₁ hm₁d
      · have hkv : kv₁ = (k, v) := List.mem_singleton.mp hm₁s
        subst hkv
        intro he
        have hmem : kv₂.1 ∈ List.map Prod.fst rest :=
          List.mem_map_of_mem Prod.fst hm₂
        rw [← he] at hmem
        exact hknotin hmem
    have hstep : dictUpdate d ((k, v) :: rest) = dictUpdate (dictSet d k v) rest := rfl
    rw [hstep, hset, ih (d ++ [(k, v)]) hndrest hdisj, List.append_assoc,
      List.singleton_append]

theorem dictRemove_sublist (d : ODict) (j : String) :
    (dictRemove d j).Sublist d := by
  induction d with
  | nil => simp [dictRemove]
  | cons kv rest ih =>
    obtain ⟨k₁, v₁⟩ := kv
    by_cases h : k₁ = j
    · simp only [dictRemove, if_pos h]
      exact List.sublist_cons_self _ _
    · simpa [dictRemove, h] using ih.cons₂ (k₁, v₁)

theorem dictRemove_keeps_ne {d : ODict} {j : String}
    (hnd : (dictKeys d).Nodup) : ∀ kv ∈ dictRemove d j, kv.1 ≠ j := by
  induction d with
  | nil => intro kv hm; cases hm
  | cons kv₀ rest ih =>
    obtain ⟨k₁, v₁⟩ := kv₀
    rw [dictKeys, List.map_cons, List.nodup_cons] at hnd
    obtain ⟨hknotin, hndrest⟩ := hnd
    intro kv hm
    by_cases h : k₁ = j
    · rw [dictRemove, if_pos h] at hm
      intro he
      have hmem : kv.1 ∈ List.map Prod.fst rest :=
        List.mem_map_of_mem Prod.fst hm
      rw [he, ← h] at hmem
      exact hknotin hmem
    · rw [dictRemove, if_neg h] at hm
      rcases List.mem_cons.mp hm with he | hm₂
      · subst he; exact h
      · exact ih hndrest kv hm₂

theorem dictRemove_of_no_key {d : ODict} {j : String}
    (h : ∀ kv ∈ d, kv.1 ≠ j) : dictRemove d j = d := by
  induction d with
  | nil => rfl
  | cons kv rest ih =>
    obtain ⟨k₁, v₁⟩ := kv
    have hk : k₁ ≠ j := h (k₁, v₁) (List.mem_cons_self _ _)
    simp only [dictRemove, if_neg hk, List.cons.injEq, true_and]
    exact ih (fun kv₂ hm => h kv₂ (List.mem_cons_of_mem _ hm))

theorem dictRemove_dictSet {p : ODict} (k₀ : String) (v : PVal)
    (hnd : (dictKeys p).Nodup) :
    dictRemove (dictSet p k₀ v) k₀
      = p.filter (fun kv => decide (kv.1 ≠ k₀)) := by
  induction p with
  | nil => simp [dictSet, dictRemove]
  | cons kv rest ih =>
    obtain ⟨k₁, v₁⟩ := kv
    rw [dictKeys, List.map_cons, List.nodup_cons] at hnd
    obtain ⟨hknotin, hndrest⟩ := hnd
    by_cases h : k₁ = k₀
    · subst h
      rw [dictSet, if_pos rfl, dictRemove, if_pos rfl]
      have hrest : ∀ kv₂ ∈ rest, kv₂.1 ≠ k₁ := by
        intro kv₂ hm he
        have hmem : kv₂.1 ∈ List.map Prod.fst rest :=
          List.mem_map_of_mem Prod.fst hm
        rw [he] at hmem
        exact hknotin hmem
      rw [List.filter_cons_of_neg]
      · exact (List.filter_eq_self.mpr
          (fun kv₂ hm => by simpa using hrest kv₂ hm)).symm
      · simp
    · rw [dictSet, if_neg h, dictRemove, if_neg h, List.filter_cons_of_pos]
      · rw [ih hndrest]
      · simpa using h

theorem dictContains_dictSet_self (p : ODict) (k₀ : String) (v : PVal) :
    dictContains (dictSet p k₀ v) k₀ = true := by
  induction p with
  | nil => simp [dictSet, dictContains]
  | cons kv rest ih =>
    obtain ⟨k₁, v₁⟩ := kv
    by_cases h : k₁ = k₀
    · simp [dictSet, if_pos h, dictContains]
    · rw [dictSet, if_neg h]
      simp only [dictContains, List.any_cons]
      have ih₁ : (List.any (dictSet rest k₀ v) fun kv => decide (kv.1 = k₀))
          = true := ih
      rw [ih₁, Bool.or_true]

theorem dictContains_filter_ne (p : ODict) (k₀ : String) :
    dictContains (p.filter (fun kv => decide (kv.1 ≠ k₀))) k₀ = false := by
  rw [Bool.eq_false_iff]
  intro ht
  obtain ⟨kv, hm, he⟩ := (dictContains_true_iff _ _).mp ht
  have := (List.mem_filter.mp hm).2
  simp [he] at this

/-! Claim C1: the token interceptor. -/

/-- Claim C1, counterexample: a response that carries no sessionToken cookie
does not leave the stored token unchanged — token_handler overwrites the
previously stored token with None, because the assignment from the cookie
lookup is unconditional. -/
theorem token_handler_reset_counterexample :
    (token_handler { session_token := some "abc", cookies := [] }
        { status_code := 200, text := "x", headers := [], cookies := [] }).session_token
      = Option.none
    ∧ some "abc" ≠ (Option.none : Option String) :=
  ⟨rfl, by decide⟩

/-- Claim C1, amended: after token_handler runs, the stored token equals the
sessionToken cookie of the response when present, and is reset to None when
the response carries no such cookie; the cookie jar itself is untouched. -/
theorem token_handler_tracks_cookie (st : SessionState) (res : Response) :
    (token_handler st res).session_token = assocGet res.cookies "sessionToken"
    ∧ (token_handler st res).cookies = st.cookies :=
  ⟨rfl, rfl⟩

/-! Claim C3: POST field ordering. -/

/-- Claim C3, counterexample: when the caller-supplied data itself contains a
token field, the serialized body is not the session token followed by the
caller fields — the dictionary update overwrites the token entry in first
position with the caller value instead. -/
theorem post_order_token_key_counterexample :
    (post (some "T") "/xml/getter.xml" [("token", PVal.str "x")]).1.data
      ≠ claimedPostBody (some "T") [("token", PVal.str "x")] := by
  decide

/-- Claim C3, amended: for every call to post whose supplied data does not
itself contain a token field, the serialized field order of the POST body is
exactly the session token first, then the fun field if present in the supplied
data, then all remaining caller fields in caller order; and the request is
issued with redirect following disabled. -/
theorem post_field_order (token : Option String) (path : String) (given : ODict)
    (hnd : (dictKeys given).Nodup)
    (hct : dictContains given "token" = false) :
    (post token path given).1.data = claimedPostBody token given
    ∧ (post token path given).1.allow_redirects = false := by
  refine ⟨?_, rfl⟩
  have htok : ∀ kv ∈ given, kv.1 ≠ "token" := forall_of_contains_false hct
  by_cases hf : dictContains given "fun" = true
  · have hne : ("token" : String) ≠ "fun" := by decide
    have hndrem : (dictKeys (dictRemove given "fun")).Nodup :=
      ((dictRemove_sublist given "fun").map Prod.fst).nodup hnd
    have hdisj : ∀ kv ∈ dictRemove given "fun",
        ∀ kv₁ ∈ [("token", tokenVal token),
          ("fun", (dictGet given "fun").getD PVal.none)], kv₁.1 ≠ kv.1 := by
      intro kv hm kv₁ hm₁
      have hmg : kv ∈ given := (dictRemove_sublist given "fun").mem hm
      have h₁ : kv.1 ≠ "token" := htok kv hmg
      have h₂ : kv.1 ≠ "fun" := dictRemove_keeps_ne hnd kv hm
      rcases List.mem_cons.mp hm₁ with he | hm₂
      · subst he; exact fun hc => h₁ hc.symm
      · have he : kv₁ = ("fun", (dictGet given "fun").getD PVal.none) :=
          List.mem_singleton.mp hm₂
        subst he; exact fun hc => h₂ hc.symm
    simp only [post, claimedPostBody, hf, if_true]
    rw [show dictSet [("token", tokenVal token)] "fun"
          ((dictGet given "fun").getD PVal.none)
        = [("token", tokenVal token),
           ("fun", (dictGet given "fun").getD PVal.none)] by
      simp [dictSet, hne]]
    rw [dictUpdate_append _ hndrem hdisj]
    rfl
  · have hf₀ : dictContains given "fun" = false :=
      Bool.eq_false_iff.mpr hf
    have hdisj : ∀ kv ∈ given,
        ∀ kv₁ ∈ [("token", tokenVal token)], kv₁.1 ≠ kv.1 := by
      intro kv hm kv₁ hm₁
      have he : kv₁ = ("token", tokenVal token) := List.mem_singleton.mp hm₁
      subst he
      exact fun hc => htok kv hm hc.symm
    simp only [post, claimedPostBody, hf₀, Bool.false_eq_true, if_false]
    rw [dictUpdate_append _ hnd hdisj]
    rfl

/-- Claim C3, witness: the amended ordering theorem applied to a concrete
request with a fun field and one further caller field. -/
theorem post_field_order_witness :
    (post (some "T") "/xml/getter.xml"
        [("fun", PVal.int 1), ("a", PVal.str "b")]).1.data
      = claimedPostBody (some "T") [("fun", PVal.int 1), ("a", PVal.str "b")]
    ∧ (post (some "T") "/xml/getter.xml"
        [("fun", PVal.int 1), ("a", PVal.str "b")]).1.allow_redirects = false :=
  post_field_order (some "T") "/xml/getter.xml"
    [("fun", PVal.int 1), ("a", PVal.str "b")] (by decide) (by decide)

/-! Claim C4: login outcome classification. -/

/-- Claim C4, counterexample: a non-200 response that carries no Location
header does not raise the unknown-login-failure ValueError — the header
subscript raises a KeyError (modelled as missingLocation) first. -/
theorem login_missing_location_counterexample :
    login [] { status_code := 500, text := "", headers := [], cookies := [] }
      = Except.error LoginError.missingLocation
    ∧ LoginError.missingLocation ≠ LoginError.unknownFailure :=
  ⟨rfl, by decide⟩

/-- Claim C4, amended: login classifies outcomes as follows — a non-200
response whose Location header ends in the access-denied page raises the
already-logged-in-elsewhere error; a non-200 response whose Location header
does not end so raises the unknown-login-failure error; a non-200 response
without a Location header fails with a key-lookup error instead; a 200
response whose query-string body has no SID raises the invalid-credentials
error; and a 200 response with a SID installs that SID as a session cookie
and returns the response. -/
theorem login_classification (jar : List (String × String)) (res : Response) :
    (res.status_code ≠ 200 → assocGet res.headers "Location" = Option.none →
        login jar res = Except.error LoginError.missingLocation)
    ∧ (∀ loc, res.status_code ≠ 200 →
        assocGet res.headers "Location" = some loc →
        strEndsWith loc "common_page/Access-denied.html" = true →
        login jar res = Except.error LoginError.accessDenied)
    ∧ (∀ loc, res.status_code ≠ 200 →
        assocGet res.headers "Location" = some loc →
        strEndsWith loc "common_page/Access-denied.html" = false →
        login jar res = Except.error LoginError.unknownFailure)
    ∧ (res.status_code = 200 → parse_qs_first res.text "SID" = Option.none →
        login jar res = Except.error LoginError.invalidCredentials)
    ∧ (∀ sid, res.status_code = 200 →
        parse_qs_first res.text "SID" = some sid →
        login jar res = Except.ok (assocSet jar "SID" sid, res)) := by
  refine ⟨?_, ?_, ?_, ?_, ?_⟩
  · intro h200 hloc
    simp [login, h200, hloc]
  · intro loc h200 hloc hend
    simp [login, h200, hloc, hend]
  · intro loc h200 hloc hend
    simp [login, h200, hloc, hend]
  · intro h200 hsid
    simp [login, h200, hsid]
  · intro sid h200 hsid
    simp [login, h200, hsid]

/-- Claim C4, witness: the classification theorem applied to a successful
login response whose body carries SID equal to abc123. -/
theorem login_classification_witness :
    login [] { status_code := 200, text := "SID=abc123", headers := [],
               cookies := [] }
      = Except.ok ([("SID", "abc123")],
          { status_code := 200, text := "SID=abc123", headers := [],
            cookies := [] }) :=
  (login_classification []
      { status_code := 200, text := "SID=abc123", headers := [],
        cookies := [] }).2.2.2.2 "abc123" rfl (by decide)

/-! Claim C5: post_binary and restore. -/

/-- Claim C5: the failing behavior, evaluated at the payload ab.  The raw-body
POST issued by restore via post_binary does carry the form-data
Content-Disposition naming Config_Restore.bin and the octet-stream
Content-Type on the Restore path, but post_binary has no return statement, so
restore hands None back to its caller instead of the Response of the POST:
the code drops the value that its own caller stores and returns. -/
theorem restore_returns_none :
    restore "ab"
      = ({ path := "/xml/getter.xml?Restore=2", body := "ab",
           headers :=
             [("Content-Disposition",
               "form-data; name=\"file\"; filename=\"Config_Restore.bin\""),
              ("Content-Type", "application/octet-stream")] },
         (Option.none : Option Response)) :=
  rfl

/-! Claim C6: timeout tolerance of reboot and factory_reset. -/

/-- Claim C6: if the setter call of reboot raises a read-timeout, reboot
returns the defined no-response result None instead of propagating; any other
transport failure propagates.  The same holds for the reset setter call inside
factory_reset, which still returns the snapshot on a read-timeout. -/
theorem reboot_timeout_tolerated (e : TransportError)
    (he : e ≠ TransportError.readTimeout) (token : Option String)
    (dv fr : PVal) (snapshot : Response) :
    reboot (Except.error TransportError.readTimeout) = Except.ok Option.none
    ∧ reboot (Except.error e) = Except.error e
    ∧ (factory_reset token dv fr (Except.ok snapshot)
        (Except.error TransportError.readTimeout)).1 = Except.ok snapshot
    ∧ (factory_reset token dv fr (Except.ok snapshot) (Except.error e)).1
        = Except.error e := by
  refine ⟨rfl, ?_, rfl, ?_⟩
  · cases e with
    | readTimeout => exact absurd rfl he
    | connectError => rfl
    | tooManyRedirects => rfl
  · cases e with
    | readTimeout => exact absurd rfl he
    | connectError => rfl
    | tooManyRedirects => rfl

/-- A concrete snapshot response used as sample input in witnesses. -/
def sampleSnap : Response :=
  { status_code := 200, text := "snap", headers := [], cookies := [] }

/-- A concrete empty-body 200 response used as sample input in witnesses. -/
def sampleOk : Response :=
  { status_code := 200, text := "", headers := [], cookies := [] }

/-- Claim C6, witness: the timeout-tolerance theorem applied to the concrete
non-timeout failure connectError and a concrete snapshot response. -/
theorem reboot_timeout_tolerated_witness :
    reboot (Except.error TransportError.readTimeout) = Except.ok Option.none
    ∧ reboot (Except.error TransportError.connectError)
        = Except.error TransportError.connectError
    ∧ (factory_reset Option.none (PVal.int 324) (PVal.int 7)
        (Except.ok sampleSnap)
        (Except.error TransportError.readTimeout)).1 = Except.ok sampleSnap
    ∧ (factory_reset Option.none (PVal.int 324) (PVal.int 7)
        (Except.ok sampleSnap)
        (Except.error TransportError.connectError)).1
      = Except.error TransportError.connectError :=
  reboot_timeout_tolerated TransportError.connectError (by decide)
    Option.none (PVal.int 324) (PVal.int 7) sampleSnap

/-! Claim C7: factory_reset reads the snapshot before the reset. -/

/-- Claim C7: factory_reset issues the default-value getter first and the
factory-reset setter second (and when the getter fails, no setter at all);
whatever value it returns normally is the getter snapshot. -/
theorem factory_reset_snapshot_first (token : Option String) (dv fr : PVal)
    (setRes : Except TransportError Response) (snapshot : Response) :
    ((factory_reset token dv fr (Except.ok snapshot) setRes).2
        = [Eff.getterCall (xml_getter token dv []).1,
           Eff.setterCall (xml_setter_call token fr []).1])
    ∧ (∀ r, (factory_reset token dv fr (Except.ok snapshot) setRes).1
          = Except.ok r → r = snapshot)
    ∧ (∀ e, (factory_reset token dv fr (Except.error e) setRes).2
          = [Eff.getterCall (xml_getter token dv []).1]) := by
  refine ⟨?_, ?_, fun e => rfl⟩
  · cases setRes with
    | ok r => rfl
    | error e =>
      cases e with
      | readTimeout => rfl
      | connectError => rfl
      | tooManyRedirects => rfl
  · cases setRes with
    | ok r =>
      intro r₁ h
      exact (Except.ok.inj h).symm
    | error e =>
      cases e with
      | readTimeout =>
        intro r₁ h
        exact (Except.ok.inj h).symm
      | connectError => intro r₁ h; exact Except.noConfusion h
      | tooManyRedirects => intro r₁ h; exact Except.noConfusion h

/-- Claim C7, witness: the ordering theorem applied to a concrete snapshot
and a successful setter call, with the returned-value hypothesis discharged
by evaluation. -/
theorem factory_reset_snapshot_first_witness :
    ((factory_reset Option.none (PVal.int 324) (PVal.int 7)
        (Except.ok sampleSnap) (Except.ok sampleOk)).2
      = [Eff.getterCall (xml_getter Option.none (PVal.int 324) []).1,
         Eff.setterCall (xml_setter_call Option.none (PVal.int 7) []).1])
    ∧ sampleSnap = sampleSnap :=
  ⟨(factory_reset_snapshot_first Option.none (PVal.int 324) (PVal.int 7)
      (Except.ok sampleOk) sampleSnap).1,
   (factory_reset_snapshot_first Option.none (PVal.int 324) (PVal.int 7)
      (Except.ok sampleOk) sampleSnap).2.1 sampleSnap rfl⟩

/-! Claim C2: cursor advancement in the scan loop. -/

/-- Claim C2, counterexample: a probe at position 5 whose body is empty but
whose session is still valid and whose status is 200 does advance the cursor
to 6, with no login and no lastLoginPosition update — contradicting the claim
that an empty-body probe never advances the cursor. -/
theorem scan_empty_body_advance_counterexample :
    scanStep { current_pos := 5, last_login := -1 }
        { status_code := 200, text := "", headers := [], cookies := [] } true
      = ScanIter.advanced
          { status_code := 200, text := "", headers := [], cookies := [] }
          { current_pos := 6, last_login := -1 }
    ∧ (6 : Int) ≠ 5 :=
  ⟨rfl, by decide⟩

/-- Claim C2, amended: the cursor fails to advance only for an empty-body
probe whose session-validity check failed — in that case login is performed,
last_login is set to the current cursor value, and the very same state (same
position) is retried by the next iteration; an empty-body probe with a valid
session and status 200 does advance the cursor by one, as does every
non-empty 200 probe, after which a non-empty body ends the loop. -/
theorem scanStep_cursor (s : ScannerState) (r : Response) (valid : Bool) :
    (r.text = "" → valid = false →
        scanStep s r valid
          = ScanIter.reLogin { s with last_login := s.current_pos }
        ∧ ∀ rest, scanRun ((r, valid) :: rest) s
            = scanRun rest { s with last_login := s.current_pos })
    ∧ (r.status_code = 200 → (r.text = "" → valid = true) →
        scanStep s r valid
          = ScanIter.advanced r { s with current_pos := s.current_pos + 1 })
    ∧ (r.status_code = 200 → r.text ≠ "" → ∀ rest,
        scanRun ((r, valid) :: rest) s
          = ScanResult.ok r { s with current_pos := s.current_pos + 1 }) := by
  refine ⟨?_, ?_, ?_⟩
  · intro hempty hvalid
    have h₁ : scanStep s r valid
        = ScanIter.reLogin { s with last_login := s.current_pos } := by
      rw [scanStep, if_pos ⟨hempty, hvalid⟩]
    exact ⟨h₁, fun rest => by simp only [scanRun, h₁]⟩
  · intro h200 himp
    have hneg : ¬(r.text = "" ∧ valid = false) := by
      rintro ⟨he, hv⟩
      rw [himp he] at hv
      exact Bool.noConfusion hv
    rw [scanStep, if_neg hneg, if_pos h200]
  · intro h200 hne rest
    have hneg : ¬(r.text = "" ∧ valid = false) := fun hc => hne hc.1
    have h₁ : scanStep s r valid
        = ScanIter.advanced r { s with current_pos := s.current_pos + 1 } := by
      rw [scanStep, if_neg hneg, if_pos h200]
    simp only [scanRun, h₁, if_neg hne]

/-- Claim C2, witness: the amended theorem applied to an empty-body probe
with an invalid session at position 5 — login branch taken, last_login set
to 5, cursor left at 5. -/
theorem scanStep_cursor_witness :
    scanStep { current_pos := 5, last_login := -1 }
        { status_code := 200, text := "", headers := [], cookies := [] } false
      = ScanIter.reLogin { current_pos := 5, last_login := 5 } :=
  ((scanStep_cursor { current_pos := 5, last_login := -1 }
      { status_code := 200, text := "", headers := [], cookies := [] }
      false).1 rfl rfl).1

/-! Claim C8: non-200 during scanning is fatal. -/

/-- Claim C8: when a probe is past the empty-body/session-validity branch
(non-empty body, or empty body with a valid session) and its status is not
200, the scan raises the HTTP ValueError carrying that status code, and the
run stops there regardless of any further scripted responses: no retry and no
re-login happen for this failure. -/
theorem scan_http_error_fatal (s : ScannerState) (r : Response) (valid : Bool)
    (rest : List (Response × Bool))
    (hcheck : ¬(r.text = "" ∧ valid = false)) (hst : r.status_code ≠ 200) :
    scanStep s r valid = ScanIter.httpError r.status_code
    ∧ scanRun ((r, valid) :: rest) s
        = ScanResult.httpError r.status_code s := by
  have h₁ : scanStep s r valid = ScanIter.httpError r.status_code := by
    rw [scanStep, if_neg hcheck, if_neg hst]
  exact ⟨h₁, by simp only [scanRun, h₁]⟩

/-- Claim C8, witness: the fatality theorem applied to a status-500 probe
with a non-empty body and a pending script that is never consumed. -/
theorem scan_http_error_fatal_witness :
    scanStep { current_pos := 5, last_login := -1 }
        { status_code := 500, text := "x", headers := [], cookies := [] } true
      = ScanIter.httpError 500
    ∧ scanRun
        [({ status_code := 500, text := "x", headers := [], cookies := [] },
          true),
         ({ status_code := 200, text := "y", headers := [], cookies := [] },
          true)]
        { current_pos := 5, last_login := -1 }
      = ScanResult.httpError 500 { current_pos := 5, last_login := -1 } :=
  scan_http_error_fatal { current_pos := 5, last_login := -1 }
    { status_code := 500, text := "x", headers := [], cookies := [] } true
    [({ status_code := 200, text := "y", headers := [], cookies := [] }, true)]
    (by decide) (by decide)

/-! Claim C9: xml_setter requires a params container. -/

/-- Claim C9: calling xml_setter without a params container fails (the
unconditional fun-key assignment on the default None raises a TypeError)
rather than issuing a request; with any supplied container, even an empty
one, the call proceeds to POST against the setter endpoint path. -/
theorem xml_setter_params_required (token : Option String) (f : PVal)
    (p : ODict) :
    xml_setter token f Option.none = Except.error PyError.typeError
    ∧ xml_setter token f (some p) = Except.ok (xml_setter_call token f p)
    ∧ (xml_setter_call token f p).1.path = "/xml/setter.xml" :=
  ⟨rfl, rfl, rfl⟩

/-! Claim C10: the caller-supplied params mapping after the call. -/

/-- Claim C10: xml_getter and xml_setter mutate the caller-supplied params
mapping in place — the injected fun key is popped again inside post, so after
the call the mapping (returned here as the second component) contains no fun
key: an original fun entry of the caller is lost, and all other entries are
unchanged and keep their order. -/
theorem params_fun_removed (token : Option String) (f : PVal) (p : ODict)
    (hnd : (dictKeys p).Nodup) :
    (xml_getter token f p).2
        = p.filter (fun kv => decide (kv.1 ≠ "fun"))
    ∧ dictContains (xml_getter token f p).2 "fun" = false
    ∧ (xml_setter_call token f p).2
        = p.filter (fun kv => decide (kv.1 ≠ "fun"))
    ∧ dictContains (xml_setter_call token f p).2 "fun" = false := by
  have hc : dictContains (dictSet p "fun" f) "fun" = true :=
    dictContains_dictSet_self p "fun" f
  have hrem := dictRemove_dictSet "fun" f hnd
  have hg : (xml_getter token f p).2
      = dictRemove (dictSet p "fun" f) "fun" := by
    simp only [xml_getter, post, hc, if_true]
  have hs : (xml_setter_call token f p).2
      = dictRemove (dictSet p "fun" f) "fun" := by
    simp only [xml_setter_call, post, hc, if_true]
  refine ⟨hg.trans hrem, ?_, hs.trans hrem, ?_⟩
  · rw [hg.trans hrem]
    exact dictContains_filter_ne p "fun"
  · rw [hs.trans hrem]
    exact dictContains_filter_ne p "fun"

/-- Claim C10, witness: the frame theorem applied to a params mapping that
already contains a fun entry besides an ordinary field — the fun entry is
gone afterwards, the other entry survives unchanged. -/
theorem params_fun_removed_witness :
    (xml_getter (some "T") (PVal.int 2)
        [("a", PVal.str "x"), ("fun", PVal.int 9)]).2
      = [("a", PVal.str "x"),
         ("fun", PVal.int 9)].filter (fun kv => decide (kv.1 ≠ "fun"))
    ∧ dictContains
        (xml_getter (some "T") (PVal.int 2)
          [("a", PVal.str "x"), ("fun", PVal.int 9)]).2 "fun" = false :=
  ⟨(params_fun_removed (some "T") (PVal.int 2)
      [("a", PVal.str "x"), ("fun", PVal.int 9)] (by decide)).1,
   (params_fun_removed (some "T") (PVal.int 2)
      [("a", PVal.str "x"), ("fun", PVal.int 9)] (by decide)).2.1⟩

end CompalModel
